import Mathlib

/-! Shallow embedding of `src/admin/angel/Core.c` from the cjdns repository:
the bootstrap core of the unprivileged worker process.  Pure functions of
the source file are translated directly; external collaborators whose code
is not part of the source tree (the bencode serializer, hex codec, the
malloc allocator, the curve25519 primitives and the DHT dispatch loop) are
modelled from the specification, each marked in its doc comment.
-/

namespace Cjdns

/-! Section: Hex codec (util/Hex.c is not under src; modelled from the spec) -/

/-- Modelled from the spec: lowercase hex digit for a nibble (`util/Hex.c`
is not in the source tree). -/
def hexDigitChar (n : Nat) : Nat :=
  if n < 10 then 48 + n else 87 + n

/-- Modelled from the spec: `Hex_encode` writes two lowercase hex
characters per input byte (high nibble first). -/
def Hex_encode : List Nat → List Nat
  | [] => []
  | b :: rest => hexDigitChar (b / 16 % 16) :: hexDigitChar (b % 16) :: Hex_encode rest

/-- Value of an ASCII hex digit, accepting both cases. -/
def hexDigitValue (b : Nat) : Option Nat :=
  if 48 ≤ b ∧ b ≤ 57 then some (b - 48)
  else if 97 ≤ b ∧ b ≤ 102 then some (b - 87)
  else if 65 ≤ b ∧ b ≤ 70 then some (b - 55)
  else none

/-- Modelled from the spec: `Hex_decode` turns 2n hex characters into n
bytes, failing on any non-hex character or odd length. -/
def Hex_decode : List Nat → Option (List Nat)
  | [] => some []
  | [_] => none
  | hi :: lo :: rest =>
    match hexDigitValue hi, hexDigitValue lo, Hex_decode rest with
    | some h, some l, some bs => some ((16 * h + l) :: bs)
    | _, _, _ => none

theorem Hex_encode_length (bs : List Nat) : (Hex_encode bs).length = 2 * bs.length := by
  induction bs with
  | nil => rfl
  | cons b rest ih => simp [Hex_encode, ih]; omega

theorem hexDigitChar_lower_hex (n : Nat) (h : n < 16) :
    (48 ≤ hexDigitChar n ∧ hexDigitChar n ≤ 57) ∨
      (97 ≤ hexDigitChar n ∧ hexDigitChar n ≤ 102) := by
  unfold hexDigitChar
  by_cases h10 : n < 10
  · rw [if_pos h10]
    exact Or.inl ⟨by omega, by omega⟩
  · rw [if_neg h10]
    exact Or.inr ⟨by omega, by omega⟩

/-- Every output byte of `Hex_encode` is an ASCII lowercase hex digit. -/
theorem Hex_encode_lower_hex (bs : List Nat) :
    ∀ c ∈ Hex_encode bs, (48 ≤ c ∧ c ≤ 57) ∨ (97 ≤ c ∧ c ≤ 102) := by
  induction bs with
  | nil => intro c hc; simp [Hex_encode] at hc
  | cons b rest ih =>
    intro c hc
    simp only [Hex_encode, List.mem_cons] at hc
    rcases hc with h | h | h
    · subst h
      exact hexDigitChar_lower_hex _ (Nat.mod_lt _ (by omega))
    · subst h
      exact hexDigitChar_lower_hex _ (Nat.mod_lt _ (by omega))
    · exact ih c h

theorem Hex_decode_length : ∀ cs bs : List Nat,
    Hex_decode cs = some bs → 2 * bs.length = cs.length
  | [], bs, h => by
    simp [Hex_decode] at h
    subst h; rfl
  | [c], bs, h => by
    simp [Hex_decode] at h
  | hi :: lo :: rest, bs, h => by
    unfold Hex_decode at h
    split at h
    · next hhi hlo hrest =>
      cases h
      have := Hex_decode_length rest _ hrest
      simp only [List.length_cons]
      omega
    · exact absurd h (by simp)

/-! Section: Bencode (benc/serialization/StandardBencSerializer.c is not under
src; modelled from the spec: a length-prefixed, ordered key/value
serialization with nested dictionaries, byte strings, integers, lists) -/

/-- A bencoded value. -/
inductive Benc where
  | int : Int → Benc
  | str : List Nat → Benc
  | list : List Benc → Benc
  | dict : List (List Nat × Benc) → Benc

abbrev BDict := List (List Nat × Benc)

/-- Parse a run of ASCII decimal digits (at least one). -/
def parseDigits : List Nat → Nat → Option (Nat × List Nat)
  | b :: rest, acc =>
    if 48 ≤ b ∧ b ≤ 57 then
      match parseDigits rest (acc * 10 + (b - 48)) with
      | some r => some r
      | none => some (acc * 10 + (b - 48), rest)
    else none
  | [], _ => none

/-- Modelled from the spec: a bencoded byte string is
`<decimal length>:<bytes>`. -/
def parseBStr (bs : List Nat) : Option (List Nat × List Nat) :=
  match parseDigits bs 0 with
  | some (n, 58 :: rest) =>
    if n ≤ rest.length then some (rest.take n, rest.drop n) else none
  | _ => none

mutual

/-- Modelled from the spec: parse one bencoded value
(`d`=dict, `l`=list, `i...e`=integer, digit=string). -/
def parseVal : Nat → List Nat → Option (Benc × List Nat)
  | 0, _ => none
  | fuel + 1, bs =>
    match bs with
    | 100 :: rest =>
      match parseEntries fuel rest with
      | some (es, r) => some (.dict es, r)
      | none => none
    | 108 :: rest =>
      match parseItems fuel rest with
      | some (vs, r) => some (.list vs, r)
      | none => none
    | 105 :: 45 :: rest =>
      match parseDigits rest 0 with
      | some (n, 101 :: r) => some (.int (-(n : Int)), r)
      | _ => none
    | 105 :: rest =>
      match parseDigits rest 0 with
      | some (n, 101 :: r) => some (.int (n : Int), r)
      | _ => none
    | _ =>
      match parseBStr bs with
      | some (s, r) => some (.str s, r)
      | none => none

/-- Modelled from the spec: dictionary entries are key/value pairs,
terminated by `e`; keys are byte strings. -/
def parseEntries : Nat → List Nat → Option (BDict × List Nat)
  | 0, _ => none
  | fuel + 1, bs =>
    match bs with
    | 101 :: rest => some ([], rest)
    | _ =>
      match parseBStr bs with
      | none => none
      | some (k, r1) =>
        match parseVal fuel r1 with
        | none => none
        | some (v, r2) =>
          match parseEntries fuel r2 with
          | some (es, r) => some ((k, v) :: es, r)
          | none => none

/-- Modelled from the spec: list items terminated by `e`. -/
def parseItems : Nat → List Nat → Option (List Benc × List Nat)
  | 0, _ => none
  | fuel + 1, bs =>
    match bs with
    | 101 :: rest => some ([], rest)
    | _ =>
      match parseVal fuel bs with
      | none => none
      | some (v, r1) =>
        match parseItems fuel r1 with
        | some (vs, r) => some ((v :: vs), r)
        | none => none

end

/-- Modelled from the spec: `parseDictionary` decodes a dictionary from the
front of the buffer (trailing bytes are ignored, as the array reader spans
the whole zero-padded buffer). -/
def parseDictionary (bs : List Nat) : Option BDict :=
  match parseVal (bs.length + 1) bs with
  | some (.dict es, _) => some es
  | _ => none

/-- Dictionary lookup `Dict_getString`: the first entry with the given key,
provided it holds a string. -/
def Dict_getString (d : BDict) (key : List Nat) : Option (List Nat) :=
  match d.find? (fun e => e.fst == key) with
  | some (_, .str s) => some s
  | _ => none

/-- Dictionary lookup `Dict_getDict`: the first entry with the given key,
provided it holds a dictionary. -/
def Dict_getDict (d : BDict) (key : List Nat) : Option BDict :=
  match d.find? (fun e => e.fst == key) with
  | some (_, .dict es) => some es
  | _ => none

/-- ASCII bytes of a string literal. -/
def strBytes (s : String) : List Nat :=
  s.data.map Char.toNat

/-! Section: Identity derivation (`parsePrivateKey`, Core.c lines 86-95) -/

/-- The C `struct Address`: the derived node identity, a 32-byte public key
and a 16-byte ip6 address. -/
structure Address where
  key : List Nat
  ip6 : List Nat
deriving DecidableEq

/-- The fatal errors `Core.c` can raise, one per `Except_raise` site. -/
inductive CoreError where
  /-- Message: this is internal to cjdns and should not be started manually. -/
  | notStartedManually
  /-- Message: initial config exceeds INITIAL_CONF_BUFF_SIZE. -/
  | confTooBig
  /-- Message: failed to parse initial configuration. -/
  | confParseFailed
  /-- Message: expected pass and privateKey in configuration. -/
  | missingPassOrPrivateKey
  /-- Message: privateKey must be 64 bytes of hex. -/
  | privateKeyNotHex
  /-- Message: ip address outside of the FC00/8 range, invalid private key. -/
  | addressOutsideFC
deriving DecidableEq

/-- Function `parsePrivateKey` (Core.c lines 86-95): derive the public key from the
private key by fixed-base scalar multiplication, derive the 16-byte address
from the public key, and raise a fatal error unless the first address byte
is `0xFC`.  The primitives `crypto_scalarmult_curve25519_base` (nacl) and
`AddressCalc_addressForPublicKey` are not under src, so the embedding takes
them as function parameters. -/
def parsePrivateKey (scalarmultBase addressForPublicKey : List Nat → List Nat)
    (privateKey : List Nat) : Except CoreError Address :=
  let key := scalarmultBase privateKey
  let ip6 := addressForPublicKey key
  if ip6.headD 0 ≠ 0xFC then
    .error .addressOutsideFC
  else
    .ok ⟨key, ip6⟩

/-! Section: Memory arena (`ALLOCATOR_FAILSAFE`, Core.c line 58; allocator
semantics modelled from the spec, MallocAllocator.c is not under src) -/

/-- Core.c line 58: abort if more than `1 <<< 22` bytes (4MB) are
allocated. -/
def ALLOCATOR_FAILSAFE : Nat := 1 <<< 22

/-- Modelled from the spec: the malloc allocator reduced to its cumulative
allocated-byte counter (MallocAllocator.c is not under src; the ceiling
passed to `MallocAllocator_new` is `ALLOCATOR_FAILSAFE` from Core.c). -/
structure MallocAllocator where
  allocated : Nat
deriving DecidableEq

/-- Modelled from the spec: allocate returns a zeroed block and bumps the
counter; when the cumulative total would exceed the ceiling it terminates
the whole process (`none`) instead of returning an error. -/
def MallocAllocator.allocate (a : MallocAllocator) (size : Nat) :
    Option (List Nat × MallocAllocator) :=
  if a.allocated + size > ALLOCATOR_FAILSAFE then
    none
  else
    some (List.replicate size 0, ⟨a.allocated + size⟩)

/-- Run a sequence of allocations left to right. -/
def MallocAllocator.allocateAll (a : MallocAllocator) : List Nat → Option MallocAllocator
  | [] => some a
  | size :: rest =>
    match a.allocate size with
    | none => none
    | some (_, a2) => a2.allocateAll rest

/-! Section: Argument parsing (Core.c lines 196-204) -/

/-- Digit-accumulation loop of C `atoi`. -/
def atoiDigits : List Char → Nat → Nat
  | c :: rest, acc =>
    if c.isDigit then atoiDigits rest (acc * 10 + (c.toNat - 48)) else acc
  | [], acc => acc

/-- C `atoi`: skip leading whitespace, then an optional sign and a run of
decimal digits; anything else yields 0. -/
def atoi (s : String) : Int :=
  let cs := s.data.dropWhile (fun c => c == ' ' || c == '\t' || c == '\n' || c == '\r')
  match cs with
  | '-' :: rest => -(atoiDigits rest 0 : Int)
  | '+' :: rest => (atoiDigits rest 0 : Int)
  | _ => (atoiDigits cs 0 : Int)

/-- The argv check at the top of `Core_main` (Core.c lines 199-204): the
process must be invoked with `argc == 4` — the program name plus three
arguments — and `atoi(argv[2])` (the toAngel pipe) and `atoi(argv[3])`
(the fromAngel pipe) must both be non-zero; `argv[1]` is never read.
Any deviation raises the fatal error whose message says the program is
internal to cjdns and should not be started manually. -/
def parseArgs (argv : List String) : Except CoreError (Int × Int) :=
  if argv.length = 4 ∧ atoi (argv.getD 2 "") ≠ 0 ∧ atoi (argv.getD 3 "") ≠ 0 then
    .ok (atoi (argv.getD 2 ""), atoi (argv.getD 3 ""))
  else
    .error .notStartedManually

/-! Section: Reading the initial configuration (`getInitialConfig`,
Core.c lines 123-142) -/

/-- Modelled from the spec: `Waiter_getData` reads from the inbound pipe
into the fixed buffer until the peer's data is exhausted or the buffer is
full, returning the number of bytes read (Waiter.c is not under src). -/
def Waiter_getData (buffSize : Nat) (data : List Nat) : Nat :=
  min data.length buffSize

/-- Function `getInitialConfig` (Core.c lines 123-142): read into a zero-initialized
buffer of `buffSize` bytes (`AngelChan_INITIAL_CONF_BUFF_SIZE`, defined
outside src, hence a parameter); if the read filled the whole buffer raise
a fatal error; otherwise bencode-parse the buffer, a parse failure also
being fatal. -/
def getInitialConfig (buffSize : Nat) (data : List Nat) : Except CoreError BDict :=
  let amountRead := Waiter_getData buffSize data
  if amountRead = buffSize then
    .error .confTooBig
  else
    let buff := data.take amountRead ++ List.replicate (buffSize - amountRead) 0
    match parseDictionary buff with
    | some config => .ok config
    | none => .error .confParseFailed

/-! Section: Configuration validation (Core.c lines 225-237) -/

/-- The configuration checks of `Core_main` (Core.c lines 225-237): look up
`privateKey` and `admin.pass`; both must be present, else fatal; then the
private key must be exactly 64 characters of hex decoding to 32 bytes,
else fatal.  Returns the password and the decoded 32-byte private key. -/
def validateConfig (config : BDict) : Except CoreError (List Nat × List Nat) :=
  let privateKeyHex := Dict_getString config (strBytes "privateKey")
  let adminConf := Dict_getDict config (strBytes "admin")
  let pass := adminConf.bind fun d => Dict_getString d (strBytes "pass")
  match pass, privateKeyHex with
  | some p, some pkHex =>
    if pkHex.length = 64 then
      match Hex_decode pkHex with
      | some key => .ok (p, key)
      | none => .error .privateKeyNotHex
    else
      .error .privateKeyNotHex
  | _, _ => .error .missingPassOrPrivateKey

/-! Section: The handshake acknowledgement (`sendResponse`, Core.c lines 144-158) -/

/-- Function `sendResponse` (Core.c lines 144-158): the bytes written to the toAngel
pipe — the bencoded literal with the 16 placeholder bytes overwritten by
the hex encoding of the 8-byte syncMagic. -/
def sendResponse (syncMagic : List Nat) : List Nat :=
  strBytes "d5:angeld9:syncMagic16:" ++ Hex_encode syncMagic ++ strBytes "ee"

/-! Section: `Core_main` (Core.c lines 191-313) -/

/-- The observable bootstrap phases of `Core_main`, in the order the source
completes them. -/
inductive Event where
  /-- Call `randombytes(syncMagic, 8)`, line 194. -/
  | genSyncMagic
  /-- Call `getInitialConfig`, line 224. -/
  | readConfig
  /-- Key and password extraction and validation, lines 225-237. -/
  | validateConfig
  /-- Call `sendResponse(toAngel, syncMagic)`, line 239. -/
  | sendResponse
  /-- Call `parsePrivateKey(privateKey, addr, eh)`, line 253. -/
  | deriveIdentity
  /-- Module construction and registration, lines 254-308. -/
  | constructModules
  /-- Call `event_base_dispatch(eventBase)`, line 311. -/
  | eventLoop
deriving DecidableEq

/-- Function `Core_main` (Core.c lines 191-313) as a function of its environment:
the argv vector, the 8 random syncMagic bytes drawn at the very start, the
bytes available on the fromAngel pipe, the initial-config buffer size, and
the external curve25519/address-derivation primitives.  Returns the
ordered trace of completed bootstrap phases, the bytes written to the
toAngel pipe, and either the derived address or the fatal error. -/
def Core_main (scalarmultBase addressForPublicKey : List Nat → List Nat)
    (buffSize : Nat) (argv : List String) (syncMagic pipeData : List Nat) :
    List Event × List Nat × Except CoreError Address :=
  match parseArgs argv with
  | .error e => ([.genSyncMagic], [], .error e)
  | .ok _ =>
    match getInitialConfig buffSize pipeData with
    | .error e => ([.genSyncMagic], [], .error e)
    | .ok config =>
      match validateConfig config with
      | .error e => ([.genSyncMagic, .readConfig], [], .error e)
      | .ok (_pass, privateKey) =>
        match parsePrivateKey scalarmultBase addressForPublicKey privateKey with
        | .error e =>
          ([.genSyncMagic, .readConfig, .validateConfig, .sendResponse],
           sendResponse syncMagic, .error e)
        | .ok addr =>
          ([.genSyncMagic, .readConfig, .validateConfig, .sendResponse,
            .deriveIdentity, .constructModules, .eventLoop],
           sendResponse syncMagic, .ok addr)

/-! Section: Key material given to each constructed component
(Core.c lines 241 and 251-308) -/

/-- Classification of an argument at a construction/registration call site:
does it pass the raw private key, the derived public key (`addr.key`), the
derived ip6 address (`addr.ip6.bytes`), or something else. -/
inductive KeyMaterial where
  | rawPrivateKey
  | publicKey
  | ip6Address
  | other
deriving DecidableEq

/-- A construction or registration call made during bootstrap. -/
structure Construction where
  name : String
  args : List KeyMaterial
deriving DecidableEq

/-- The construction and registration calls of `Core_main`
(Core.c lines 241, 254-300), in source order, each argument classified by
the key material it passes. -/
def bootstrapConstructions : List Construction := [
  ⟨"Admin_new", [.other, .other, .other, .other, .other, .other, .other]⟩,
  ⟨"CryptoAuth_new", [.other, .rawPrivateKey, .other, .other]⟩,
  ⟨"SwitchCore_new", [.other, .other]⟩,
  ⟨"DHTModuleRegistry_new", [.other]⟩,
  ⟨"ReplyModule_register", [.other, .other]⟩,
  ⟨"RouterModule_register", [.other, .other, .publicKey, .other, .other, .other]⟩,
  ⟨"SerializationModule_register", [.other, .other]⟩,
  ⟨"Ducttape_register",
    [.rawPrivateKey, .other, .other, .other, .other, .other, .other, .other]⟩,
  ⟨"SwitchPinger_new", [.other, .other, .other, .other]⟩,
  ⟨"DefaultInterfaceController_new",
    [.other, .other, .other, .other, .other, .other, .other]⟩,
  ⟨"SwitchPinger_admin_register", [.other, .other, .other]⟩,
  ⟨"UDPInterface_admin_register", [.other, .other, .other, .other, .other]⟩,
  ⟨"RouterModule_admin_register", [.other, .other, .other]⟩,
  ⟨"AuthorizedPasswords_init", [.other, .other, .other]⟩,
  ⟨"Core_admin_register", [.ip6Address, .other, .other, .other, .other, .other]⟩,
  ⟨"Security_admin_register", [.other, .other, .other]⟩
]

/-! Section: DHT dispatch chain (registration order from Core.c lines 257-268;
dispatch semantics modelled from the spec, the registry implementation is
not under src) -/

/-- The three dispatch-chain modules Core.c registers. -/
inductive DhtModule where
  | replyModule
  | routerModule
  | serializationModule
deriving DecidableEq

/-- The dispatch-chain registration order in `Core_main`
(Core.c lines 257-268): `ReplyModule_register`, then
`RouterModule_register`, then `SerializationModule_register`. -/
def dhtRegistrationOrder : List DhtModule :=
  [.replyModule, .routerModule, .serializationModule]

/-- Modelled from the spec: the registry offers an inbound message to the
registered modules in order and the first module whose message-type
predicate matches consumes it, short-circuiting dispatch (the registry
implementation is not under src).  Returns the consuming module. -/
def dispatchConsumer (handles : DhtModule → Bool) : List DhtModule → Option DhtModule
  | [] => none
  | m :: rest => if handles m then some m else dispatchConsumer handles rest

/-- Modelled from the spec: the modules that are offered the message —
every registered module up to and including the consumer. -/
def dispatchOffered (handles : DhtModule → Bool) : List DhtModule → List DhtModule
  | [] => []
  | m :: rest => if handles m then [m] else m :: dispatchOffered handles rest

/-! Section: trace-order helper -/

/-- Scan a trace: true when the first occurrence of the first event lies
strictly before the first occurrence of the second, and the second does
occur. -/
def tracePrecedes (e1 e2 : Event) : List Event → Bool
  | [] => false
  | e :: rest =>
    if e == e2 then false
    else if e == e1 then rest.contains e2
    else tracePrecedes e1 e2 rest

/-! Section: concrete fixtures used by witnesses and counterexamples -/

/-- A stand-in for the fixed-base scalar multiplication in concrete runs. -/
def testScalarmult : List Nat → List Nat := fun _ => List.replicate 32 7

/-- A stand-in address derivation whose output starts with `0xFC`. -/
def testAddressCalc : List Nat → List Nat := fun _ => 0xFC :: List.replicate 15 9

/-- A well-formed argv: program name plus three arguments, the second and
third numeric non-zero pipe descriptors. -/
def testArgv : List String := ["cjdns", "core", "3", "4"]

/-- Eight concrete syncMagic bytes. -/
def testMagic : List Nat := [1, 2, 3, 4, 5, 6, 7, 8]

/-- A valid bootstrap blob: admin.pass present and a 64-hex-char
privateKey. -/
def testBlob : List Nat :=
  strBytes "d5:admind4:pass3:abce10:privateKey64:" ++ List.replicate 64 97 ++ strBytes "e"

/-! Section: claim C1 -/

/-- C1: identity derivation computes the public key from the private key by
the fixed-base scalar multiplication and the 16-byte address by the
deterministic transform of that public key; when the first address byte is
`0xFC` it succeeds with exactly that identity, and otherwise it raises the
fatal FC00/8 startup error (no identity is returned and no retry with
another key happens).  The two external primitives appear as function
parameters, as their code is outside the source tree. -/
theorem C1_parsePrivateKey_fc00_gate
    (scalarmultBase addressForPublicKey : List Nat → List Nat)
    (privateKey : List Nat) :
    if (addressForPublicKey (scalarmultBase privateKey)).headD 0 = 0xFC then
      parsePrivateKey scalarmultBase addressForPublicKey privateKey =
        .ok ⟨scalarmultBase privateKey, addressForPublicKey (scalarmultBase privateKey)⟩
    else
      parsePrivateKey scalarmultBase addressForPublicKey privateKey =
        .error .addressOutsideFC := by
  by_cases h : (addressForPublicKey (scalarmultBase privateKey)).headD 0 = 0xFC
  · rw [if_pos h]
    simp only [parsePrivateKey]
    rw [if_neg (by simpa using h)]
  · rw [if_neg h]
    simp only [parsePrivateKey]
    rw [if_pos (by simpa using h)]

/-! Section: claim C2 -/

theorem allocateAll_isSome : ∀ (sizes : List Nat) (a : Nat),
    a ≤ ALLOCATOR_FAILSAFE →
    ((MallocAllocator.allocateAll ⟨a⟩ sizes).isSome = true ↔
      a + sizes.sum ≤ ALLOCATOR_FAILSAFE)
  | [], a, ha => by
    simp [MallocAllocator.allocateAll]
    omega
  | s :: rest, a, ha => by
    have h1 : MallocAllocator.allocate ⟨a⟩ s =
        if a + s > ALLOCATOR_FAILSAFE then none
        else some (List.replicate s 0, ⟨a + s⟩) := rfl
    by_cases h : a + s > ALLOCATOR_FAILSAFE
    · rw [MallocAllocator.allocateAll, h1, if_pos h]
      simp [List.sum_cons]
      omega
    · rw [MallocAllocator.allocateAll, h1, if_neg h]
      have ih := allocateAll_isSome rest (a + s) (by omega)
      simp only [List.sum_cons]
      rw [ih]
      omega

/-- C2: a sequence of allocations from the process allocator succeeds as a
whole exactly when its cumulative size stays at or below the `1 <<< 22`
byte failsafe ceiling, and an individual allocation either returns a
zeroed block of the requested size (cumulative total within the ceiling)
or terminates the process — `none`, not an error value. -/
theorem C2_allocator_failsafe (sizes : List Nat) (a size : Nat) :
    ((MallocAllocator.allocateAll ⟨0⟩ sizes).isSome = true ↔
      sizes.sum ≤ ALLOCATOR_FAILSAFE) ∧
    (MallocAllocator.allocate ⟨a⟩ size =
      if a + size ≤ ALLOCATOR_FAILSAFE then
        some (List.replicate size 0, ⟨a + size⟩)
      else none) := by
  constructor
  · simpa using allocateAll_isSome sizes 0 (Nat.zero_le _)
  · unfold MallocAllocator.allocate
    by_cases h : a + size > ALLOCATOR_FAILSAFE
    · rw [if_pos h, if_neg (by omega)]
    · rw [if_neg h, if_pos (by omega)]

/-! Section: claim C4 -/

/-- C4 counterexample: `Ducttape_register` — not the crypto-session layer —
is also passed the raw private key (Core.c line 270), refuting the claim
that the crypto-session layer is the only constructed component given the
raw key. -/
theorem C4_counterexample_ducttape_gets_raw_key :
    (⟨"Ducttape_register",
      [.rawPrivateKey, .other, .other, .other, .other, .other, .other, .other]⟩ :
        Construction) ∈ bootstrapConstructions ∧
    KeyMaterial.rawPrivateKey ∈
      (⟨"Ducttape_register",
        [.rawPrivateKey, .other, .other, .other, .other, .other, .other, .other]⟩ :
          Construction).args ∧
    ("Ducttape_register" : String) ≠ "CryptoAuth_new" := by
  decide

/-- C4 amended: exactly two constructed components receive the raw private
key — the crypto-session layer (`CryptoAuth_new`) and the ducttape packet
plumbing (`Ducttape_register`); the router is constructed from the derived
public key and never sees the raw key. -/
theorem C4_amended_raw_key_consumers :
    ((bootstrapConstructions.filter
        (fun c => c.args.contains KeyMaterial.rawPrivateKey)).map Construction.name =
      ["CryptoAuth_new", "Ducttape_register"]) ∧
    ((bootstrapConstructions.filter
        (fun c => c.name == "RouterModule_register")).all
      (fun c => !(c.args.contains KeyMaterial.rawPrivateKey) &&
        c.args.contains KeyMaterial.publicKey) = true) := by
  decide

/-! Section: claim C6 -/

/-- C6: in the dispatch chain built during bootstrap the reply-correlation
module is registered before the router module and the serialization module
is registered last; for any message-type predicate matched by both the
reply module and the router module, dispatch is consumed by the reply
module and the router module is never offered the message. -/
theorem C6_reply_consumes_before_router (handles : DhtModule → Bool)
    (hreply : handles .replyModule = true)
    (_hrouter : handles .routerModule = true) :
    (dhtRegistrationOrder.findIdx (· == DhtModule.replyModule) <
      dhtRegistrationOrder.findIdx (· == DhtModule.routerModule)) ∧
    dhtRegistrationOrder.getLast? = some .serializationModule ∧
    dispatchConsumer handles dhtRegistrationOrder = some .replyModule ∧
    DhtModule.routerModule ∉ dispatchOffered handles dhtRegistrationOrder := by
  refine ⟨by decide, by decide, ?_, ?_⟩
  · simp [dispatchConsumer, dhtRegistrationOrder, hreply]
  · simp [dispatchOffered, dhtRegistrationOrder, hreply]

/-- Witness for C6 at a concrete predicate matching both the reply and the
router module. -/
theorem C6_reply_consumes_before_router_witness :
    (dhtRegistrationOrder.findIdx (· == DhtModule.replyModule) <
      dhtRegistrationOrder.findIdx (· == DhtModule.routerModule)) ∧
    dhtRegistrationOrder.getLast? = some .serializationModule ∧
    dispatchConsumer (fun m => !(m == DhtModule.serializationModule))
      dhtRegistrationOrder = some .replyModule ∧
    DhtModule.routerModule ∉
      dispatchOffered (fun m => !(m == DhtModule.serializationModule))
        dhtRegistrationOrder :=
  C6_reply_consumes_before_router _ rfl rfl

/-! Section: claim C3 -/

set_option maxRecDepth 100000 in
/-- Decoding the acknowledgement frame: for any 16-byte payload, the
response bytes parse back to exactly the nested angel/syncMagic
dictionary holding that payload. -/
theorem parseDictionary_ack (hexStr : List Nat) (hlen : hexStr.length = 16) :
    parseDictionary (strBytes "d5:angeld9:syncMagic16:" ++ hexStr ++ strBytes "ee") =
      some [(strBytes "angel",
        Benc.dict [(strBytes "syncMagic", Benc.str hexStr)])] := by
  rcases hexStr with _ | ⟨a1, _ | ⟨a2, _ | ⟨a3, _ | ⟨a4, _ | ⟨a5, _ | ⟨a6, _ | ⟨a7, _ |
    ⟨a8, _ | ⟨a9, _ | ⟨a10, _ | ⟨a11, _ | ⟨a12, _ | ⟨a13, _ | ⟨a14, _ | ⟨a15, _ |
    ⟨a16, _ | ⟨a17, t⟩⟩⟩⟩⟩⟩⟩⟩⟩⟩⟩⟩⟩⟩⟩⟩⟩
  all_goals first
  | rfl
  | (exfalso; simp only [List.length_cons, List.length_nil] at hlen; omega)

/-- C3: whenever argument parsing succeeds and the received bootstrap blob
is valid (it reads, decodes, and passes key/password validation), the
bytes `Core_main` writes to the outbound pipe are the `sendResponse`
acknowledgement, which decodes to exactly the dictionary
angel -> syncMagic -> the 16 lowercase hex characters encoding the
8 syncMagic bytes generated at the start of the same run. -/
theorem C3_ack_is_syncMagic_dict
    (scalarmultBase addressForPublicKey : List Nat → List Nat)
    (buffSize : Nat) (argv : List String) (syncMagic pipeData : List Nat)
    (hmagic : syncMagic.length = 8)
    (hargs : ∃ p, parseArgs argv = .ok p)
    (hconf : ∃ config pk, getInitialConfig buffSize pipeData = .ok config ∧
      validateConfig config = .ok pk) :
    (Core_main scalarmultBase addressForPublicKey buffSize argv syncMagic pipeData).2.1 =
      sendResponse syncMagic ∧
    parseDictionary (sendResponse syncMagic) =
      some [(strBytes "angel",
        Benc.dict [(strBytes "syncMagic", Benc.str (Hex_encode syncMagic))])] ∧
    (Hex_encode syncMagic).length = 16 ∧
    (∀ c ∈ Hex_encode syncMagic, (48 ≤ c ∧ c ≤ 57) ∨ (97 ≤ c ∧ c ≤ 102)) := by
  obtain ⟨p, hp⟩ := hargs
  obtain ⟨config, pk, hc, hv⟩ := hconf
  obtain ⟨pass, key⟩ := pk
  have hlen : (Hex_encode syncMagic).length = 16 := by
    rw [Hex_encode_length, hmagic]
  refine ⟨?_, ?_, hlen, Hex_encode_lower_hex syncMagic⟩
  · unfold Core_main
    simp only [hp, hc, hv]
    cases parsePrivateKey scalarmultBase addressForPublicKey key <;> rfl
  · unfold sendResponse
    exact parseDictionary_ack _ hlen

set_option maxRecDepth 100000 in
/-- Witness for C3 at a fully concrete run. -/
theorem C3_ack_is_syncMagic_dict_witness :
    (Core_main testScalarmult testAddressCalc 200 testArgv testMagic testBlob).2.1 =
      sendResponse testMagic ∧
    parseDictionary (sendResponse testMagic) =
      some [(strBytes "angel",
        Benc.dict [(strBytes "syncMagic", Benc.str (Hex_encode testMagic))])] ∧
    (Hex_encode testMagic).length = 16 :=
  ⟨(C3_ack_is_syncMagic_dict testScalarmult testAddressCalc 200 testArgv testMagic
      testBlob rfl ⟨(3, 4), rfl⟩ ⟨_, _, rfl, rfl⟩).1,
   (C3_ack_is_syncMagic_dict testScalarmult testAddressCalc 200 testArgv testMagic
      testBlob rfl ⟨(3, 4), rfl⟩ ⟨_, _, rfl, rfl⟩).2.1,
   (C3_ack_is_syncMagic_dict testScalarmult testAddressCalc 200 testArgv testMagic
      testBlob rfl ⟨(3, 4), rfl⟩ ⟨_, _, rfl, rfl⟩).2.2.1⟩

/-! Section: claim C5 -/

set_option maxRecDepth 100000 in
/-- C5 counterexample: a concrete successful run (valid argv, valid blob,
derived address inside FC00/8) in which the ready response is sent
strictly before identity derivation — and derivation does not precede the
send — refuting the claim that derivation happens before the ready
response in every run. -/
theorem C5_counterexample_send_precedes_derive :
    (Core_main testScalarmult testAddressCalc 200 testArgv testMagic testBlob).2.2 =
      .ok ⟨List.replicate 32 7, 0xFC :: List.replicate 15 9⟩ ∧
    tracePrecedes .sendResponse .deriveIdentity
      (Core_main testScalarmult testAddressCalc 200 testArgv testMagic testBlob).1 = true ∧
    tracePrecedes .deriveIdentity .sendResponse
      (Core_main testScalarmult testAddressCalc 200 testArgv testMagic testBlob).1 = false :=
  ⟨rfl, rfl, rfl⟩

/-- C5 amended: in every run of `Core_main` in which identity derivation
happens, the send of the ready response precedes it — derivation never
precedes the send — and module construction happens only after
derivation. -/
theorem C5_amended_send_before_derive
    (scalarmultBase addressForPublicKey : List Nat → List Nat) (buffSize : Nat)
    (argv : List String) (syncMagic pipeData : List Nat) :
    ((Core_main scalarmultBase addressForPublicKey buffSize argv syncMagic
        pipeData).1.contains Event.deriveIdentity = true →
      tracePrecedes .sendResponse .deriveIdentity
        (Core_main scalarmultBase addressForPublicKey buffSize argv syncMagic
          pipeData).1 = true) ∧
    (tracePrecedes .deriveIdentity .sendResponse
      (Core_main scalarmultBase addressForPublicKey buffSize argv syncMagic
        pipeData).1 = false) ∧
    ((Core_main scalarmultBase addressForPublicKey buffSize argv syncMagic
        pipeData).1.contains Event.constructModules = true →
      tracePrecedes .deriveIdentity .constructModules
        (Core_main scalarmultBase addressForPublicKey buffSize argv syncMagic
          pipeData).1 = true) := by
  unfold Core_main
  repeat' split
  all_goals dsimp only
  all_goals decide

set_option maxRecDepth 100000 in
/-- Witness for the amended C5 at a concrete run that derives an
identity. -/
theorem C5_amended_send_before_derive_witness :
    tracePrecedes .sendResponse .deriveIdentity
      (Core_main testScalarmult testAddressCalc 200 testArgv testMagic testBlob).1 = true ∧
    tracePrecedes .deriveIdentity .constructModules
      (Core_main testScalarmult testAddressCalc 200 testArgv testMagic testBlob).1 = true :=
  ⟨(C5_amended_send_before_derive testScalarmult testAddressCalc 200 testArgv
      testMagic testBlob).1 rfl,
   (C5_amended_send_before_derive testScalarmult testAddressCalc 200 testArgv
      testMagic testBlob).2.2 rfl⟩

/-! Section: claim C7 -/

/-- C7: configuration validation succeeds exactly when the decoded
configuration holds an `admin` dictionary containing a `pass` string and a
`privateKey` string of exactly 64 hex characters decoding to exactly 32
bytes; any deviation (missing key, wrong length, non-hex characters) is
the corresponding fatal error. -/
theorem C7_config_validation_iff (config : BDict) :
    (∃ pk, validateConfig config = .ok pk) ↔
      ((∃ d p, Dict_getDict config (strBytes "admin") = some d ∧
          Dict_getString d (strBytes "pass") = some p) ∧
       (∃ pkHex key, Dict_getString config (strBytes "privateKey") = some pkHex ∧
          pkHex.length = 64 ∧ Hex_decode pkHex = some key ∧ key.length = 32)) := by
  constructor
  · rintro ⟨pk, h⟩
    simp only [validateConfig] at h
    rcases hd : Dict_getDict config (strBytes "admin") with _ | d
    · simp [hd] at h
    · rcases hp : Dict_getString d (strBytes "pass") with _ | p
      · simp [hd, hp] at h
      · rcases hpkh : Dict_getString config (strBytes "privateKey") with _ | pkHex
        · simp [hd, hp, hpkh] at h
        · by_cases h64 : pkHex.length = 64
          · rcases hdec : Hex_decode pkHex with _ | key
            · simp [hd, hp, hpkh, h64, hdec] at h
            · have hklen : key.length = 32 := by
                have := Hex_decode_length pkHex key hdec
                omega
              exact ⟨⟨d, p, rfl, hp⟩, pkHex, key, rfl, h64, hdec, hklen⟩
          · simp [hd, hp, hpkh, h64] at h
  · rintro ⟨⟨d, p, hd, hp⟩, pkHex, key, hpkh, h64, hdec, _⟩
    refine ⟨(p, key), ?_⟩
    simp [validateConfig, hd, hp, hpkh, h64, hdec]

/-! Section: claim C8 -/

/-- C8: during the handshake read, filling the fixed buffer is a fatal
protocol error, bytes that fail to bencode-decode as a dictionary are a
fatal error, and a successful read both fits strictly inside the buffer
and decodes to the returned dictionary. -/
theorem C8_read_overflow_and_decode_failure_fatal (buffSize : Nat) (data : List Nat) :
    (buffSize ≤ data.length → getInitialConfig buffSize data = .error .confTooBig) ∧
    (data.length < buffSize →
      parseDictionary (data ++ List.replicate (buffSize - data.length) 0) = none →
      getInitialConfig buffSize data = .error .confParseFailed) ∧
    (∀ config, getInitialConfig buffSize data = .ok config →
      data.length < buffSize ∧
      parseDictionary (data ++ List.replicate (buffSize - data.length) 0) =
        some config) := by
  refine ⟨?_, ?_, ?_⟩
  · intro h
    simp only [getInitialConfig, Waiter_getData]
    rw [if_pos (Nat.min_eq_right h)]
  · intro h hparse
    simp only [getInitialConfig, Waiter_getData]
    rw [Nat.min_eq_left (Nat.le_of_lt h), if_neg (by omega), List.take_length, hparse]
  · intro config h
    simp only [getInitialConfig, Waiter_getData] at h
    by_cases hlt : data.length < buffSize
    · rw [Nat.min_eq_left (Nat.le_of_lt hlt), if_neg (by omega), List.take_length] at h
      refine ⟨hlt, ?_⟩
      rcases hp : parseDictionary (data ++ List.replicate (buffSize - data.length) 0)
        with _ | c
      · rw [hp] at h
        simp at h
      · rw [hp] at h
        simp only at h
        cases h
        rfl
    · rw [Nat.min_eq_right (by omega), if_pos rfl] at h
      simp at h

/-- Witness for C8: a buffer-filling read and an undecodable blob, each
fatal. -/
theorem C8_read_overflow_and_decode_failure_fatal_witness :
    getInitialConfig 2 (strBytes "de") = .error .confTooBig ∧
    getInitialConfig 4 (strBytes "xyz") = .error .confParseFailed :=
  ⟨(C8_read_overflow_and_decode_failure_fatal 2 (strBytes "de")).1 (by decide),
   (C8_read_overflow_and_decode_failure_fatal 4 (strBytes "xyz")).2.1 (by decide) rfl⟩

/-! Section: claim C9 -/

set_option maxRecDepth 100000 in
/-- C9 counterexample: invoked with exactly two numeric non-zero arguments
beyond the program name (argc == 3), startup nevertheless fails with the
fatal not-to-be-started-manually error, because the code requires
argc == 4 and reads the pipe descriptors from argv[2] and argv[3]. -/
theorem C9_counterexample_two_numeric_args_rejected :
    atoi "3" ≠ 0 ∧ atoi "4" ≠ 0 ∧
    parseArgs ["cjdns-core", "3", "4"] = .error .notStartedManually ∧
    Core_main testScalarmult testAddressCalc 200 ["cjdns-core", "3", "4"]
      testMagic testBlob = ([.genSyncMagic], [], .error .notStartedManually) :=
  ⟨by decide, by decide, rfl, rfl⟩

/-- C9 amended: startup proceeds past argument parsing iff the process is
invoked with argc == 4 — three arguments beyond the program name, of which
the second and third (the outbound and inbound pipe descriptors) atoi-parse
to non-zero integers, the first being ignored; any deviation makes
`Core_main` stop at once with the fatal error whose message states the
program is internal to cjdns and should not be started manually. -/
theorem C9_amended_argc_four_required
    (scalarmultBase addressForPublicKey : List Nat → List Nat) (buffSize : Nat)
    (argv : List String) (syncMagic pipeData : List Nat) :
    ((∃ p, parseArgs argv = .ok p) ↔
      (argv.length = 4 ∧ atoi (argv.getD 2 "") ≠ 0 ∧ atoi (argv.getD 3 "") ≠ 0)) ∧
    (¬ (argv.length = 4 ∧ atoi (argv.getD 2 "") ≠ 0 ∧ atoi (argv.getD 3 "") ≠ 0) →
      Core_main scalarmultBase addressForPublicKey buffSize argv syncMagic pipeData =
        ([.genSyncMagic], [], .error .notStartedManually)) := by
  constructor
  · constructor
    · rintro ⟨p, hp⟩
      by_cases hcond : argv.length = 4 ∧ atoi (argv.getD 2 "") ≠ 0 ∧
          atoi (argv.getD 3 "") ≠ 0
      · exact hcond
      · unfold parseArgs at hp
        rw [if_neg hcond] at hp
        exact absurd hp (by simp)
    · intro hcond
      refine ⟨(atoi (argv.getD 2 ""), atoi (argv.getD 3 "")), ?_⟩
      unfold parseArgs
      rw [if_pos hcond]
  · intro hcond
    have hpa : parseArgs argv = .error .notStartedManually := by
      unfold parseArgs
      rw [if_neg hcond]
    unfold Core_main
    rw [hpa]

/-- Witness for the amended C9 at a deviating invocation. -/
theorem C9_amended_argc_four_required_witness :
    Core_main testScalarmult testAddressCalc 200 ["cjdns"] testMagic testBlob =
      ([.genSyncMagic], [], .error .notStartedManually) :=
  (C9_amended_argc_four_required testScalarmult testAddressCalc 200 ["cjdns"]
    testMagic testBlob).2 (by decide)

/-! Section: claim C10 -/

/-- C10: a handshake read that fills the configuration buffer exactly is
fatal even when the received bytes are a complete well-formed bencoded
dictionary; a run of `getInitialConfig` can only accept a blob strictly
smaller than the buffer. -/
theorem C10_exact_fill_always_fatal (buffSize : Nat) (data : List Nat) (d : BDict)
    (hlen : data.length = buffSize)
    (_hwf : parseDictionary data = some d) :
    getInitialConfig buffSize data = .error .confTooBig ∧
    (∀ (n : Nat) (data2 : List Nat) (config : BDict),
      getInitialConfig n data2 = .ok config → data2.length < n) := by
  constructor
  · simp only [getInitialConfig, Waiter_getData]
    rw [hlen, Nat.min_self, if_pos rfl]
  · intro n data2 config h
    simp only [getInitialConfig, Waiter_getData] at h
    by_cases hlt : data2.length < n
    · exact hlt
    · rw [Nat.min_eq_right (by omega), if_pos rfl] at h
      simp at h

/-- Witness for C10: the two-byte blob holding the empty dictionary fills a
two-byte buffer exactly and is rejected. -/
theorem C10_exact_fill_always_fatal_witness :
    getInitialConfig 2 (strBytes "de") = .error .confTooBig :=
  (C10_exact_fill_always_fatal 2 (strBytes "de") [] rfl rfl).1

end Cjdns
